import Mathlib

/-!
# EduTrack enrollment services: a shallow embedding

This file embeds the three FastAPI services of the EduTrack repository
(src/student-service/main.py, src/course-service/main.py,
src/enrollment-service/main.py) as executable Lean definitions and proves
the specification claims about them.

The shared relational datastore is modelled as lists of rows; each SQL
statement of the source becomes the corresponding list operation
(SELECT ... WHERE id = x becomes List.find?, DELETE becomes List.filter,
UPDATE becomes List.map, INSERT becomes append).  SQL integer columns are
modelled as Int so that the GREATEST(x - 1, 0) flooring in
delete_enrollment is meaningful.  Fields no claim depends on
(registration_date, enrollment_date, description, phone of a course join)
and the ORDER BY clauses, which affect row order only, are omitted.
-/

/-- A row of the students table (src/student-service/main.py). -/
structure Student where
  student_id : Int
  name : String
  email : String
  phone : Option String
deriving Repr, DecidableEq

/-- A row of the courses table (src/course-service/main.py). -/
structure Course where
  course_id : Int
  course_code : String
  course_name : String
  credits : Int
  instructor : Option String
  max_capacity : Int
  current_enrollment : Int
  status : String
deriving Repr, DecidableEq

/-- A row of the enrollments table (src/enrollment-service/main.py).
The grade column is nullable; status has a schema default, see
defaultEnrollmentStatus. -/
structure Enrollment where
  enrollment_id : Int
  student_id : Int
  course_id : Int
  grade : Option String
  status : String
deriving Repr, DecidableEq

/-- The shared relational datastore of the three services. -/
structure DB where
  students : List Student
  courses : List Course
  enrollments : List Enrollment
deriving Repr, DecidableEq

/-- Modelled from the spec: the schema file that supplies the default for
the status column of a fresh enrollment row is not under src/ (the INSERT in
create_enrollment names only student_id and course_id); the spec only says
the field is a mutable lifecycle field, so the default is an arbitrary
fixed string.  No claim depends on its value. -/
def defaultEnrollmentStatus : String := "enrolled"

/-- The errors the handlers raise via HTTPException: an HTTP status code
plus the detail string, exactly as in the source. -/
structure ApiError where
  status_code : Nat
  detail : String
deriving Repr, DecidableEq

/-- HTTPException(404, "... not found") for a missing student. -/
def studentNotFound (sid : Int) : ApiError :=
  ⟨404, "Student with ID " ++ toString sid ++ " not found"⟩

/-- HTTPException(404, "... not found") for a missing course. -/
def courseNotFound (cid : Int) : ApiError :=
  ⟨404, "Course with ID " ++ toString cid ++ " not found"⟩

/-- HTTPException(404, "... not found") for a missing enrollment. -/
def enrollmentNotFound (eid : Int) : ApiError :=
  ⟨404, "Enrollment with ID " ++ toString eid ++ " not found"⟩

/-- SELECT student_id FROM students WHERE student_id = sid. -/
def findStudent (db : DB) (sid : Int) : Option Student :=
  db.students.find? (fun s => s.student_id == sid)

/-- SELECT ... FROM courses WHERE course_id = cid. -/
def findCourse (db : DB) (cid : Int) : Option Course :=
  db.courses.find? (fun c => c.course_id == cid)

/-- SELECT ... FROM enrollments WHERE enrollment_id = eid. -/
def findEnrollment (db : DB) (eid : Int) : Option Enrollment :=
  db.enrollments.find? (fun e => e.enrollment_id == eid)

/-- SELECT enrollment_id FROM enrollments WHERE student_id = sid AND
course_id = cid. -/
def findEnrollmentPair (db : DB) (sid cid : Int) : Option Enrollment :=
  db.enrollments.find? (fun e => e.student_id == sid && e.course_id == cid)

/-- The serial primary key the datastore hands back through
RETURNING enrollment_id: one larger than every id already in the table. -/
def nextEnrollmentId (db : DB) : Int :=
  (db.enrollments.map (fun e => e.enrollment_id)).foldr max 0 + 1

/-- The check phase of create_enrollment
(src/enrollment-service/main.py lines 136-189): the five precondition
queries, run in source order against the datastore state visible at check
time; the first failing check produces its HTTPException. -/
def createChecks (db : DB) (sid cid : Int) : Option ApiError :=
  match findStudent db sid with
  | none => some (studentNotFound sid)
  | some _ =>
    match findCourse db cid with
    | none => some (courseNotFound cid)
    | some course =>
      if course.status != "active" then
        some ⟨400, "Course is not active"⟩
      else if course.current_enrollment ≥ course.max_capacity then
        some ⟨400, "Course is full"⟩
      else if (findEnrollmentPair db sid cid).isSome then
        some ⟨400, "Student is already enrolled in this course"⟩
      else
        none

/-- The write phase of create_enrollment
(src/enrollment-service/main.py lines 191-204): INSERT the enrollment row,
then UPDATE courses SET current_enrollment = current_enrollment + 1 for the
target course, then commit.  It acts on the datastore state at commit
time; the source takes no row lock and uses no conditional update, so
between another call's check phase and commit phase nothing stops this
phase from running. -/
def createCommit (db : DB) (eid sid cid : Int) : DB :=
  { db with
    enrollments :=
      db.enrollments ++ [⟨eid, sid, cid, none, defaultEnrollmentStatus⟩],
    courses := db.courses.map (fun c =>
      if c.course_id == cid then
        { c with current_enrollment := c.current_enrollment + 1 }
      else c) }

/-- The enriched read-back of an enrollment: the join
SELECT e.*, s.name, s.email, c.course_code, c.course_name, c.credits used
by create_enrollment, get_enrollment and update_enrollment. -/
structure EnrichedEnrollment where
  enrollment : Enrollment
  student_name : String
  student_email : String
  course_code : String
  course_name : String
  credits : Int
deriving Repr, DecidableEq

/-- The join query, as an inner join: a row is produced only when the
enrollment and both referenced rows exist (fetchone returns None
otherwise). -/
def enrichEnrollment (db : DB) (eid : Int) : Option EnrichedEnrollment :=
  match findEnrollment db eid with
  | none => none
  | some e =>
    match findStudent db e.student_id, findCourse db e.course_id with
    | some s, some c =>
      some ⟨e, s.name, s.email, c.course_code, c.course_name, c.credits⟩
    | _, _ => none

/-- create_enrollment (src/enrollment-service/main.py lines 131-225), run
start to finish with no interleaving: the five checks, then on success the
insert and the increment in one transaction, then the enriched read-back.
Returns the HTTP result together with the datastore state after the call;
every error path leaves the datastore untouched because every check
precedes every write. -/
def create_enrollment (db : DB) (sid cid : Int) :
    Except ApiError (Option EnrichedEnrollment) × DB :=
  match createChecks db sid cid with
  | some err => (.error err, db)
  | none =>
    let eid := nextEnrollmentId db
    let db2 := createCommit db eid sid cid
    (.ok (enrichEnrollment db2 eid), db2)

example :
    (create_enrollment ⟨[⟨1, "Ada", "ada@x.org", none⟩],
      [⟨1, "CS1", "Intro", 3, none, 1, 0, "active"⟩], []⟩ 1 1).2.courses =
    [⟨1, "CS1", "Intro", 3, none, 1, 1, "active"⟩] := by decide

example :
    (create_enrollment ⟨[], [], []⟩ 7 1).1 =
    .error (studentNotFound 7) := rfl

/-- The update body PUT /enrollments/id accepts: each field optional,
None meaning "not supplied" (src/enrollment-service/main.py lines 27-29). -/
structure EnrollmentUpdate where
  grade : Option String
  status : Option String
deriving Repr, DecidableEq

/-- The dynamic UPDATE statement update_enrollment builds
(src/enrollment-service/main.py lines 251-270): each supplied field is
written, each unsupplied field keeps its prior value; applied to every row
matching the WHERE enrollment_id clause. -/
def applyEnrollmentUpdate (u : EnrollmentUpdate) (e : Enrollment) : Enrollment :=
  { e with
    grade := match u.grade with | some g => some g | none => e.grade,
    status := match u.status with | some s => s | none => e.status }

/-- update_enrollment (src/enrollment-service/main.py lines 236-292):
existence check, then the no-fields check, then the dynamic UPDATE and the
enriched read-back. -/
def update_enrollment (db : DB) (eid : Int) (u : EnrollmentUpdate) :
    Except ApiError (Option EnrichedEnrollment) × DB :=
  match findEnrollment db eid with
  | none => (.error (enrollmentNotFound eid), db)
  | some _ =>
    if u.grade == none && u.status == none then
      (.error ⟨400, "No fields to update"⟩, db)
    else
      let db2 := { db with
        enrollments := db.enrollments.map (fun e =>
          if e.enrollment_id == eid then applyEnrollmentUpdate u e else e) }
      (.ok (enrichEnrollment db2 eid), db2)

/-- delete_enrollment (src/enrollment-service/main.py lines 303-333):
existence check, then atomically DELETE the row and
UPDATE courses SET current_enrollment = GREATEST(current_enrollment - 1, 0)
for the referenced course. -/
def delete_enrollment (db : DB) (eid : Int) : Except ApiError String × DB :=
  match findEnrollment db eid with
  | none => (.error (enrollmentNotFound eid), db)
  | some e =>
    let db2 := { db with
      enrollments := db.enrollments.filter (fun x => !(x.enrollment_id == eid)),
      courses := db.courses.map (fun c =>
        if c.course_id == e.course_id then
          { c with current_enrollment := max (c.current_enrollment - 1) 0 }
        else c) }
    (.ok ("Enrollment " ++ toString eid ++ " deleted successfully"), db2)

/-- get_enrollments_by_student (src/enrollment-service/main.py lines
344-371): existence check on the scoping student, then the join of that
student's enrollments with their courses.  The ORDER BY clause only
orders rows and is omitted. -/
def get_enrollments_by_student (db : DB) (sid : Int) :
    Except ApiError (List (Enrollment × Course)) :=
  match findStudent db sid with
  | none => .error (studentNotFound sid)
  | some _ =>
    .ok ((db.enrollments.filter (fun e => e.student_id == sid)).filterMap
      (fun e => (findCourse db e.course_id).map (fun c => (e, c))))

/-- get_enrollments_by_course (src/enrollment-service/main.py lines
382-409): existence check on the scoping course, then the join of that
course's enrollments with their students. -/
def get_enrollments_by_course (db : DB) (cid : Int) :
    Except ApiError (List (Enrollment × Student)) :=
  match findCourse db cid with
  | none => .error (courseNotFound cid)
  | some _ =>
    .ok ((db.enrollments.filter (fun e => e.course_id == cid)).filterMap
      (fun e => (findStudent db e.student_id).map (fun s => (e, s))))

/-- get_courses (src/course-service/main.py lines 167-180): with
active_only (the default, FastAPI fills true when the query parameter is
absent) the WHERE status = active filter applies; otherwise the whole
table is returned.  ORDER BY course_code is modelled by mergeSort on the
code, which only permutes rows. -/
def get_courses (db : DB) (active_only : Bool) : List Course :=
  if active_only then
    (db.courses.filter (fun c => c.status == "active")).mergeSort
      (fun a b => a.course_code ≤ b.course_code)
  else
    db.courses.mergeSort (fun a b => a.course_code ≤ b.course_code)

/-- A call of GET /courses that does not supply the active_only query
parameter: FastAPI applies the declared default active_only = True. -/
def get_courses_default (db : DB) : List Course := get_courses db true

/-! ## Admin session (src/course-service/main.py)

Time is modelled in seconds as Int; datetime.now() is the now argument.
bcrypt is an external library assumed correct, so checkpw is modelled as
comparison of the presented password against the stored credential.
secrets.token_urlsafe is modelled by passing the fresh token in. -/

/-- A row of the admins table. -/
structure Admin where
  username : String
  password_hash : String
deriving Repr, DecidableEq

/-- A value of the in-memory active_tokens dict: username and expiry
(src/course-service/main.py lines 146-149). -/
structure TokenInfo where
  username : String
  expires_at : Int
deriving Repr, DecidableEq

/-- The active_tokens dict, as an association list looked up front to
back; insertion conses at the front, matching dict overwrite. -/
def Tokens := List (String × TokenInfo)
deriving Repr, DecidableEq

/-- Seconds in timedelta(hours=8). -/
def eightHours : Int := 8 * 3600

/-- Python str.startswith, on the underlying character lists. -/
def pyStartsWith (s pre : String) : Bool := pre.data.isPrefixOf s.data

/-- Python str.replace with the empty replacement, on character lists:
every non-overlapping occurrence of pat, scanned left to right, is
dropped.  Structural recursion on a fuel that the initial length bounds,
since each step consumes at least one character. -/
def replaceChars (pat : List Char) (fuel : Nat) (l : List Char) : List Char :=
  match fuel, l with
  | 0, l => l
  | _ + 1, [] => []
  | fuel + 1, a :: rest =>
    if pat.isPrefixOf (a :: rest) then
      replaceChars pat fuel ((a :: rest).drop pat.length)
    else
      a :: replaceChars pat fuel rest

/-- Python s.replace(pat, ""), the token extraction the source applies to
the Authorization header. -/
def pyReplaceDrop (s pat : String) : String :=
  ⟨replaceChars pat.data s.data.length s.data⟩

/-- bcrypt.checkpw, abstracted: the external library verifies the
presented password against the stored hash; correct verification is
equality with the stored credential. -/
def checkpw (password hash : String) : Bool := password == hash

/-- admin_login (src/course-service/main.py lines 119-156): look the
username up in the admins table, verify the password, and on success store
a fresh token mapped to (username, now + 8 hours), returning the token and
its expiry. -/
def admin_login (admins : List Admin) (tokens : Tokens) (username password : String)
    (now freshTokenSeed : Int) : Except ApiError (String × Int) × Tokens :=
  let freshToken := "tok" ++ toString freshTokenSeed
  match admins.find? (fun a => a.username == username) with
  | none => (.error ⟨401, "Invalid credentials"⟩, tokens)
  | some admin =>
    if !(checkpw password admin.password_hash) then
      (.error ⟨401, "Invalid credentials"⟩, tokens)
    else
      let expires := now + eightHours
      (.ok (freshToken, expires),
        ((freshToken, ⟨admin.username, expires⟩) :: tokens : Tokens))

/-- verify_admin_token (src/course-service/main.py lines 69-98): reject a
missing Authorization header, a header without the Bearer form, a token
absent from active_tokens, and a token whose expiry lies strictly before
now (datetime.now() > expires_at); an expired token is also deleted from
the dict.  On success return the stored username. -/
def verify_admin_token (tokens : Tokens) (authorization : Option String)
    (now : Int) : Except ApiError String × Tokens :=
  match authorization with
  | none => (.error ⟨401, "Authorization header missing"⟩, tokens)
  | some auth =>
    if !(pyStartsWith auth "Bearer ") then
      (.error ⟨401, "Invalid authorization header format"⟩, tokens)
    else
      let token := pyReplaceDrop auth "Bearer "
      match (tokens : List (String × TokenInfo)).find? (fun p => p.1 == token) with
      | none => (.error ⟨401, "Invalid or expired token"⟩, tokens)
      | some p =>
        if p.2.expires_at < now then
          (.error ⟨401, "Token expired"⟩,
            ((tokens : List (String × TokenInfo)).filter
              (fun q => !(q.1 == token)) : Tokens))
        else
          (.ok p.2.username, tokens)

/-! ## Exception propagation (claim C7)

Each handler body runs inside try/except.  When the datastore raises a
DatabaseError during the operation, the matching except clause should wrap
it as HTTPException(500, "Database error: ...").  Python resolves the
exception class named in an except clause at handling time: if that name
is not bound in the module scope, evaluating the clause raises NameError
and the original exception is replaced by an escaping NameError.  The
psycopg names each service module imports are fixed by its import list. -/

/-- Exception class names src/enrollment-service/main.py line 6 imports
from psycopg. -/
def enrollmentServiceExcImports : List String :=
  ["OperationalError", "DatabaseError"]

/-- Exception class names src/student-service/main.py line 6 imports from
psycopg. -/
def studentServiceExcImports : List String :=
  ["OperationalError", "DatabaseError"]

/-- The outcome of one HTTP request: a successful payload, an
HTTPException turned into a response, or an exception that escaped the
handler unhandled. -/
inductive PyOutcome (α : Type) where
  | ok (a : α)
  | httpError (e : ApiError)
  | uncaught (exnClass : String)
deriving Repr, DecidableEq

/-- Python semantics of the trailing "except NAME as e: raise
HTTPException(500, ...)" clause around a body that raised a
DatabaseError: if NAME is unbound in the module scope the clause itself
raises NameError, which escapes; otherwise (NAME bound to a psycopg error
class matching DatabaseError) the wrapped 500 is returned. -/
def handleDbError {α : Type} (moduleScope : List String) (clauseName : String) :
    PyOutcome α :=
  if moduleScope.contains clauseName then
    .httpError ⟨500, "Database error"⟩
  else
    .uncaught "NameError"

/-- create_enrollment as the full HTTP handler, with a flag saying whether
the datastore raises a DatabaseError during the operation.  Its trailing
clause (src/enrollment-service/main.py line 228) is "except DatabaseError
as e", and DatabaseError is imported. -/
def create_enrollment_handler (db : DB) (sid cid : Int) (dbRaises : Bool) :
    PyOutcome (Option EnrichedEnrollment) × DB :=
  if dbRaises then
    (handleDbError enrollmentServiceExcImports "DatabaseError", db)
  else
    match create_enrollment db sid cid with
    | (.ok r, db2) => (.ok r, db2)
    | (.error e, db2) => (.httpError e, db2)

/-- get_student_enrollments (src/student-service/main.py lines 258-293) as
the full HTTP handler, with a flag saying whether the datastore raises a
DatabaseError during the operation.  Its trailing clause (line 289) is
"except Error as e" — and Error is NOT among the names the module imports,
so a DatabaseError there escapes as NameError instead of being wrapped. -/
def get_student_enrollments_handler (db : DB) (sid : Int) (dbRaises : Bool) :
    PyOutcome (List (Enrollment × Course)) :=
  if dbRaises then
    handleDbError studentServiceExcImports "Error"
  else
    match findStudent db sid with
    | none => .httpError (studentNotFound sid)
    | some _ =>
      .ok ((db.enrollments.filter (fun e => e.student_id == sid)).filterMap
        (fun e => (findCourse db e.course_id).map (fun c => (e, c))))

/-! ## The racy schedule for claim C1

The source runs the five checks and the two writes as plain statements in
one connection, with no SELECT FOR UPDATE and no conditional UPDATE, so
the datastore admits the schedule in which two calls for the same course
both run their check phase before either runs its write phase. -/

/-- Two CreateEnrollment calls for students s1 and s2 on course cid,
interleaved so that both check phases read the initial state before either
write phase runs.  Returns the final datastore when both calls pass their
checks (both respond 201), and none when either check fails. -/
def racyScheduleBothSucceed (db : DB) (s1 s2 cid : Int) : Option DB :=
  match createChecks db s1 cid, createChecks db s2 cid with
  | none, none =>
    let db1 := createCommit db (nextEnrollmentId db) s1 cid
    some (createCommit db1 (nextEnrollmentId db1) s2 cid)
  | _, _ => none

/-- Pre-state of the race: one active course with max_capacity 1 and
current_enrollment 0, two registered students, no enrollments. -/
def raceDB : DB :=
  ⟨[⟨1, "Ada", "ada@x.org", none⟩, ⟨2, "Bob", "bob@x.org", none⟩],
   [⟨1, "CS1", "Intro", 3, none, 1, 0, "active"⟩], []⟩

/-- The course row the racy schedule leaves behind: capacity 1 yet
occupancy 2. -/
def overbookedCourse : Course := ⟨1, "CS1", "Intro", 3, none, 1, 2, "active"⟩

/-- Pre-state for exercising the course-is-full branch: one student, one
active course already at capacity. -/
def fullDB : DB :=
  ⟨[⟨1, "Ada", "ada@x.org", none⟩],
   [⟨1, "CS1", "Intro", 3, none, 1, 1, "active"⟩], []⟩

/-- Pre-state with a DB whose operations cannot touch anything: one
student, no courses, no enrollments. -/
def c7DB : DB := ⟨[⟨1, "Ada", "ada@x.org", none⟩], [], []⟩

/-- Pre-state with one enrollment whose course counter already sits at 0,
the inconsistent situation scenario D describes. -/
def delDB : DB :=
  ⟨[⟨1, "Ada", "ada@x.org", none⟩],
   [⟨1, "CS1", "Intro", 3, none, 30, 0, "active"⟩],
   [⟨5, 1, 1, none, "enrolled"⟩]⟩

/-- Admins table with one credential, for exercising the login paths. -/
def rootAdmins : List Admin := [⟨"root", "pw"⟩]

/-! ## Helper lemmas -/

/-- find? commutes with a map that preserves the predicate. -/
theorem find?_map_of_pred_eq {α : Type} (p : α → Bool) (f : α → α)
    (hf : ∀ a, p (f a) = p a) (l : List α) :
    (l.map f).find? p = (l.find? p).map f := by
  have hpf : p ∘ f = p := funext hf
  rw [List.find?_map, hpf]

/-- Every member of a list of integers is at most its foldr max 0. -/
theorem le_foldr_max (l : List Int) (x : Int) (hx : x ∈ l) :
    x ≤ l.foldr max 0 := by
  induction l with
  | nil => cases hx
  | cons a t ih =>
    rcases List.mem_cons.mp hx with h | h
    · subst h
      exact le_max_left x (t.foldr max 0)
    · exact le_trans (ih h) (le_max_right a (t.foldr max 0))

/-- The serial id the datastore returns is strictly larger than every id
already in the enrollments table. -/
theorem enrollment_id_lt_next (db : DB) (e : Enrollment)
    (he : e ∈ db.enrollments) : e.enrollment_id < nextEnrollmentId db := by
  have hle : e.enrollment_id ≤
      (db.enrollments.map (fun x => x.enrollment_id)).foldr max 0 :=
    le_foldr_max _ _ (List.mem_map_of_mem _ he)
  unfold nextEnrollmentId
  omega

/-- Looking the fresh row up after the write phase finds exactly the row
just inserted. -/
theorem findEnrollment_createCommit (db : DB) (sid cid : Int) :
    findEnrollment (createCommit db (nextEnrollmentId db) sid cid)
      (nextEnrollmentId db) =
    some ⟨nextEnrollmentId db, sid, cid, none, defaultEnrollmentStatus⟩ := by
  unfold findEnrollment createCommit
  rw [List.find?_append]
  have h1 : db.enrollments.find?
      (fun e => e.enrollment_id == nextEnrollmentId db) = none := by
    rw [List.find?_eq_none]
    intro x hx
    simpa using Int.ne_of_lt (enrollment_id_lt_next db x hx)
  rw [h1]
  simp [List.find?]


/-! ## Claims -/

/-- C1: the spec claims the five-step check sequence plus the
insert-and-increment is serialized per course, so that with remaining
capacity C fewer than N concurrent calls, exactly C succeed and no commit
leaves current_enrollment above max_capacity.  The code violates this: it
takes no row lock and uses no conditional update, so the schedule in which
two calls both pass their checks before either commits is admitted, both
calls respond 201, and the course with max_capacity 1 ends with
current_enrollment 2. -/
theorem C1_overbooking_race :
    racyScheduleBothSucceed raceDB 1 2 1 =
      some ⟨raceDB.students, [overbookedCourse],
        [⟨1, 1, 1, none, defaultEnrollmentStatus⟩,
         ⟨2, 2, 1, none, defaultEnrollmentStatus⟩]⟩ ∧
    overbookedCourse.max_capacity < overbookedCourse.current_enrollment := by
  decide

/-- C7: the spec claims every datastore-level error raised during an
operation is wrapped and surfaced with a stable status code, in particular
for the student-enrollments read.  The code violates this in
get_student_enrollments of the student service: its trailing clause names
the class Error, which the module never imports, so when the datastore
raises a DatabaseError the clause itself raises NameError and that
NameError escapes the handler unwrapped.  The same situation in the
enrollment service, whose clause names the imported DatabaseError, is
wrapped as the claim states. -/
theorem C7_db_error_escapes :
    get_student_enrollments_handler c7DB 1 true = .uncaught "NameError" ∧
    (∀ e : ApiError, get_student_enrollments_handler c7DB 1 true ≠ .httpError e) ∧
    create_enrollment_handler c7DB 1 1 true =
      (.httpError ⟨500, "Database error"⟩, c7DB) := by
  refine ⟨by decide, ?_, by decide⟩
  intro e h
  simp [get_student_enrollments_handler, handleDbError,
    studentServiceExcImports] at h

/-- C9: every CreateEnrollment call that fails with a precondition error
leaves the datastore completely unchanged: every check precedes every
write, so the error paths return the original state. -/
theorem C9_failed_create_leaves_db_unchanged (db : DB) (sid cid : Int)
    (err : ApiError) (h : (create_enrollment db sid cid).1 = .error err) :
    (create_enrollment db sid cid).2 = db := by
  unfold create_enrollment at h ⊢
  cases hc : createChecks db sid cid with
  | none =>
    rw [hc] at h
    simp at h
  | some e => rfl

/-- Witness for C9 at a concrete input: creating for a missing student in
the empty datastore fails and changes nothing. -/
theorem C9_witness :
    (create_enrollment ⟨[], [], []⟩ 7 1).2 = (⟨[], [], []⟩ : DB) :=
  C9_failed_create_leaves_db_unchanged ⟨[], [], []⟩ 7 1 (studentNotFound 7) rfl

/-- C10: a GET /courses call without an explicit active_only=false
parameter returns exactly the courses whose status is active: membership
in the default result is equivalent to membership in the table with
status active. -/
theorem C10_default_filters_active (db : DB) (c : Course) :
    c ∈ get_courses_default db ↔ c ∈ db.courses ∧ c.status = "active" := by
  simp [get_courses_default, get_courses, List.mem_mergeSort, List.mem_filter]

/-- C2: the five CreateEnrollment preconditions are checked in the fixed
order student-exists, course-exists, course-active, capacity, duplicate,
and the first failing check in that order determines the error: 404 for a
missing student or course, 400 otherwise, each with its own detail. -/
theorem C2_check_order (db : DB) (sid cid : Int) :
    (findStudent db sid = none →
      (create_enrollment db sid cid).1 = .error (studentNotFound sid)) ∧
    (findStudent db sid ≠ none → findCourse db cid = none →
      (create_enrollment db sid cid).1 = .error (courseNotFound cid)) ∧
    (∀ c, findStudent db sid ≠ none → findCourse db cid = some c →
      c.status ≠ "active" →
      (create_enrollment db sid cid).1 = .error ⟨400, "Course is not active"⟩) ∧
    (∀ c, findStudent db sid ≠ none → findCourse db cid = some c →
      c.status = "active" → c.max_capacity ≤ c.current_enrollment →
      (create_enrollment db sid cid).1 = .error ⟨400, "Course is full"⟩) ∧
    (∀ c, findStudent db sid ≠ none → findCourse db cid = some c →
      c.status = "active" → c.current_enrollment < c.max_capacity →
      findEnrollmentPair db sid cid ≠ none →
      (create_enrollment db sid cid).1 =
        .error ⟨400, "Student is already enrolled in this course"⟩) := by
  refine ⟨?_, ?_, ?_, ?_, ?_⟩
  · intro h
    simp [create_enrollment, createChecks, h]
  · intro hs hc
    cases h : findStudent db sid with
    | none => exact absurd h hs
    | some s => simp [create_enrollment, createChecks, h, hc]
  · intro c hs hc hst
    cases h : findStudent db sid with
    | none => exact absurd h hs
    | some s => simp [create_enrollment, createChecks, h, hc, hst]
  · intro c hs hc hst hcap
    cases h : findStudent db sid with
    | none => exact absurd h hs
    | some s => simp [create_enrollment, createChecks, h, hc, hst, hcap]
  · intro c hs hc hst hlt hdup
    cases h : findStudent db sid with
    | none => exact absurd h hs
    | some s =>
      have hcap : ¬ (c.current_enrollment ≥ c.max_capacity) := not_le.mpr hlt
      have hd : (findEnrollmentPair db sid cid).isSome = true :=
        Option.isSome_iff_ne_none.mpr hdup
      simp [create_enrollment, createChecks, h, hc, hst, hcap, hd]

/-- Witness for C2 at a concrete input: the course of fullDB is at
capacity, the student and course exist and the course is active, so the
call fails with the course-is-full error. -/
theorem C2_witness :
    (create_enrollment fullDB 1 1).1 = .error ⟨400, "Course is full"⟩ :=
  (C2_check_order fullDB 1 1).2.2.2.1 ⟨1, "CS1", "Intro", 3, none, 1, 1, "active"⟩
    (by decide) rfl rfl (by decide)

/-- The write phase leaves the students table untouched, so a student
lookup is unchanged. -/
theorem findStudent_createCommit (db : DB) (eid sid cid qid : Int) :
    findStudent (createCommit db eid sid cid) qid = findStudent db qid := rfl

/-- The courses table after the write phase, spelled out. -/
theorem createCommit_courses (db : DB) (eid sid cid : Int) :
    (createCommit db eid sid cid).courses = db.courses.map (fun a =>
      if a.course_id == cid then
        { a with current_enrollment := a.current_enrollment + 1 }
      else a) := rfl

/-- After the write phase, looking the target course up finds the old row
with its counter incremented by one. -/
theorem findCourse_createCommit (db : DB) (eid sid cid : Int) (c : Course)
    (hc : findCourse db cid = some c) :
    findCourse (createCommit db eid sid cid) cid =
      some { c with current_enrollment := c.current_enrollment + 1 } := by
  unfold findCourse at hc ⊢
  have hpc : c.course_id = cid := by simpa using List.find?_some hc
  rw [createCommit_courses, find?_map_of_pred_eq, hc]
  · simp [hpc]
  · intro a
    by_cases hA : (a.course_id == cid) = true
    · simp [hA]
    · simp [hA]

/-- Courses other than the target keep their exact row across the write
phase. -/
theorem mem_courses_createCommit (db : DB) (eid sid cid : Int) (c2 : Course)
    (h2 : c2 ∈ db.courses) (hne : c2.course_id ≠ cid) :
    c2 ∈ (createCommit db eid sid cid).courses := by
  show c2 ∈ db.courses.map _
  rw [List.mem_map]
  exact ⟨c2, h2, by simp [hne]⟩

/-- The enriched read-back after the write phase returns the fresh row
joined with the pre-state student fields and the course display fields,
which the increment does not touch. -/
theorem enrich_createCommit (db : DB) (sid cid : Int) (s : Student) (c : Course)
    (hs : findStudent db sid = some s) (hc : findCourse db cid = some c) :
    enrichEnrollment (createCommit db (nextEnrollmentId db) sid cid)
      (nextEnrollmentId db) =
    some ⟨⟨nextEnrollmentId db, sid, cid, none, defaultEnrollmentStatus⟩,
      s.name, s.email, c.course_code, c.course_name, c.credits⟩ := by
  unfold enrichEnrollment
  rw [findEnrollment_createCommit]
  have hs2 : findStudent (createCommit db (nextEnrollmentId db) sid cid) sid =
      some s := hs
  have hc2 := findCourse_createCommit db (nextEnrollmentId db) sid cid c hc
  simp [hs2, hc2]

/-- C3: when all five preconditions pass, the transaction appends exactly
one enrollment row carrying the fresh id and the requested pair,
increments the target course counter by exactly one, leaves the students
table and every other course row untouched, and returns the created
enrollment enriched with the student name and email and the course code,
name and credits. -/
theorem C3_success_effect (db : DB) (sid cid : Int) (s : Student) (c : Course)
    (hs : findStudent db sid = some s) (hc : findCourse db cid = some c)
    (hst : c.status = "active") (hlt : c.current_enrollment < c.max_capacity)
    (hdup : findEnrollmentPair db sid cid = none) :
    (create_enrollment db sid cid).1 =
      .ok (some ⟨⟨nextEnrollmentId db, sid, cid, none, defaultEnrollmentStatus⟩,
        s.name, s.email, c.course_code, c.course_name, c.credits⟩) ∧
    (create_enrollment db sid cid).2.enrollments =
      db.enrollments ++
        [⟨nextEnrollmentId db, sid, cid, none, defaultEnrollmentStatus⟩] ∧
    (create_enrollment db sid cid).2.students = db.students ∧
    findCourse (create_enrollment db sid cid).2 cid =
      some { c with current_enrollment := c.current_enrollment + 1 } ∧
    (∀ c2, c2 ∈ db.courses → c2.course_id ≠ cid →
      c2 ∈ (create_enrollment db sid cid).2.courses) := by
  have hcap : ¬ (c.current_enrollment ≥ c.max_capacity) := not_le.mpr hlt
  have hchk : createChecks db sid cid = none := by
    simp [createChecks, hs, hc, hst, hcap, hdup]
  have hrun : create_enrollment db sid cid =
      (.ok (enrichEnrollment (createCommit db (nextEnrollmentId db) sid cid)
        (nextEnrollmentId db)),
       createCommit db (nextEnrollmentId db) sid cid) := by
    unfold create_enrollment
    rw [hchk]
  rw [hrun]
  refine ⟨?_, rfl, rfl, ?_, ?_⟩
  · rw [enrich_createCommit db sid cid s c hs hc]
  · exact findCourse_createCommit db (nextEnrollmentId db) sid cid c hc
  · intro c2 h2 hne
    exact mem_courses_createCommit db (nextEnrollmentId db) sid cid c2 h2 hne

/-- Witness for C3 at a concrete input: enrolling the one student of a
fresh course succeeds, appends the row with id 1, and sets the counter
to 1. -/
theorem C3_witness :
    (create_enrollment ⟨[⟨1, "Ada", "ada@x.org", none⟩],
        [⟨1, "CS1", "Intro", 3, none, 30, 0, "active"⟩], []⟩ 1 1).1 =
      .ok (some ⟨⟨1, 1, 1, none, defaultEnrollmentStatus⟩,
        "Ada", "ada@x.org", "CS1", "Intro", 3⟩) :=
  (C3_success_effect ⟨[⟨1, "Ada", "ada@x.org", none⟩],
      [⟨1, "CS1", "Intro", 3, none, 30, 0, "active"⟩], []⟩ 1 1
    ⟨1, "Ada", "ada@x.org", none⟩ ⟨1, "CS1", "Intro", 3, none, 30, 0, "active"⟩
    rfl rfl rfl (by decide) rfl).1

/-- Looking a course up in a mapped courses table whose update function
touches only rows with the target id and preserves course_id finds the
updated old row. -/
theorem findCourse_map_update (db : DB) (cid : Int) (c : Course)
    (g : Course → Course) (hg : ∀ a, (g a).course_id = a.course_id)
    (hc : findCourse db cid = some c) :
    (db.courses.map (fun a => if a.course_id == cid then g a else a)).find?
      (fun a => a.course_id == cid) = some (g c) := by
  have hpc : c.course_id = cid := by simpa using List.find?_some hc
  unfold findCourse at hc
  rw [find?_map_of_pred_eq, hc]
  · simp [hpc]
  · intro a
    by_cases hA : (a.course_id == cid) = true
    · simp [hA, hg]
    · simp [hA]

/-- C4: DeleteEnrollment on a missing id fails with the 404 and changes
nothing; on an existing enrollment it atomically removes that row and
floors the referenced course counter at 0 (GREATEST(current_enrollment -
1, 0)), so the counter never goes negative even from the inconsistent
pre-state current_enrollment = 0, while students and unrelated courses
are untouched. -/
theorem C4_delete_effect (db : DB) (eid : Int) :
    (findEnrollment db eid = none →
      delete_enrollment db eid = (.error (enrollmentNotFound eid), db)) ∧
    (∀ e, findEnrollment db eid = some e →
      (delete_enrollment db eid).1 =
        .ok ("Enrollment " ++ toString eid ++ " deleted successfully") ∧
      (delete_enrollment db eid).2.students = db.students ∧
      (delete_enrollment db eid).2.enrollments =
        db.enrollments.filter (fun x => !(x.enrollment_id == eid)) ∧
      (∀ c, findCourse db e.course_id = some c →
        findCourse (delete_enrollment db eid).2 e.course_id =
          some { c with current_enrollment := max (c.current_enrollment - 1) 0 } ∧
        0 ≤ max (c.current_enrollment - 1) 0) ∧
      (∀ c2, c2 ∈ db.courses → c2.course_id ≠ e.course_id →
        c2 ∈ (delete_enrollment db eid).2.courses)) := by
  constructor
  · intro h
    unfold delete_enrollment
    rw [h]
  · intro e he
    have hrun : delete_enrollment db eid =
        (.ok ("Enrollment " ++ toString eid ++ " deleted successfully"),
         { db with
           enrollments := db.enrollments.filter (fun x => !(x.enrollment_id == eid)),
           courses := db.courses.map (fun c =>
             if c.course_id == e.course_id then
               { c with current_enrollment := max (c.current_enrollment - 1) 0 }
             else c) }) := by
      unfold delete_enrollment
      rw [he]
    rw [hrun]
    refine ⟨rfl, rfl, rfl, ?_, ?_⟩
    · intro c hc
      refine ⟨?_, le_max_right _ _⟩
      show (db.courses.map _).find? _ = _
      exact findCourse_map_update db e.course_id c _ (fun a => rfl) hc
    · intro c2 h2 hne
      show c2 ∈ db.courses.map _
      rw [List.mem_map]
      exact ⟨c2, h2, by simp [hne]⟩

/-- Witness for C4 at a concrete input: deleting enrollment 5 of delDB,
whose course counter already sits at 0, removes the row and leaves the
counter at 0 rather than -1. -/
theorem C4_witness :
    findCourse (delete_enrollment delDB 5).2 1 =
      some ⟨1, "CS1", "Intro", 3, none, 30, 0, "active"⟩ ∧
    (0 : Int) ≤ 0 := by
  have h := (C4_delete_effect delDB 5).2 ⟨5, 1, 1, none, "enrolled"⟩ rfl
  have h2 := (h.2.2.2.1 ⟨1, "CS1", "Intro", 3, none, 30, 0, "active"⟩ rfl)
  exact ⟨h2.1, h2.2⟩

/-- Looking an enrollment up after the dynamic UPDATE map finds the
updated old row; the update function preserves enrollment_id. -/
theorem findEnrollment_map_update (db : DB) (eid : Int) (e : Enrollment)
    (u : EnrollmentUpdate) (he : findEnrollment db eid = some e) :
    (db.enrollments.map (fun x =>
      if x.enrollment_id == eid then applyEnrollmentUpdate u x else x)).find?
      (fun x => x.enrollment_id == eid) = some (applyEnrollmentUpdate u e) := by
  have hpe : e.enrollment_id = eid := by simpa using List.find?_some he
  unfold findEnrollment at he
  rw [find?_map_of_pred_eq, he]
  · simp [hpe]
  · intro a
    by_cases hA : (a.enrollment_id == eid) = true
    · simp [hA, applyEnrollmentUpdate]
    · simp [hA]

/-- C5: UpdateEnrollment on a missing id fails with the 404 and changes
nothing; with no field supplied it fails with the 400 and changes nothing;
otherwise exactly the supplied fields are written, the unsupplied ones and
the identity fields keep their prior value, every other enrollment row is
untouched, and the courses and students tables, in particular the course
counter, are unchanged. -/
theorem C5_update_effect (db : DB) (eid : Int) (u : EnrollmentUpdate) :
    (findEnrollment db eid = none →
      update_enrollment db eid u = (.error (enrollmentNotFound eid), db)) ∧
    (findEnrollment db eid ≠ none → u.grade = none → u.status = none →
      update_enrollment db eid u = (.error ⟨400, "No fields to update"⟩, db)) ∧
    (∀ e, findEnrollment db eid = some e → ¬(u.grade = none ∧ u.status = none) →
      (update_enrollment db eid u).2.courses = db.courses ∧
      (update_enrollment db eid u).2.students = db.students ∧
      findEnrollment (update_enrollment db eid u).2 eid =
        some (applyEnrollmentUpdate u e) ∧
      (applyEnrollmentUpdate u e).student_id = e.student_id ∧
      (applyEnrollmentUpdate u e).course_id = e.course_id ∧
      (u.grade = none → (applyEnrollmentUpdate u e).grade = e.grade) ∧
      (u.status = none → (applyEnrollmentUpdate u e).status = e.status) ∧
      (∀ g, u.grade = some g → (applyEnrollmentUpdate u e).grade = some g) ∧
      (∀ st, u.status = some st → (applyEnrollmentUpdate u e).status = st) ∧
      (∀ x, x ∈ db.enrollments → x.enrollment_id ≠ eid →
        x ∈ (update_enrollment db eid u).2.enrollments)) := by
  refine ⟨?_, ?_, ?_⟩
  · intro h
    unfold update_enrollment
    rw [h]
  · intro hne hg hs
    cases h : findEnrollment db eid with
    | none => exact absurd h hne
    | some e =>
      unfold update_enrollment
      rw [h]
      simp [hg, hs]
  · intro e he hne
    have hb : (u.grade == none && u.status == none) = false := by
      rcases hgr : u.grade with _ | g
      · rcases hst : u.status with _ | st
        · exact absurd ⟨hgr, hst⟩ hne
        · simp
      · simp
    have hrun : update_enrollment db eid u =
        (.ok (enrichEnrollment { db with
            enrollments := db.enrollments.map (fun x =>
              if x.enrollment_id == eid then applyEnrollmentUpdate u x else x) }
          eid),
         { db with
           enrollments := db.enrollments.map (fun x =>
             if x.enrollment_id == eid then applyEnrollmentUpdate u x else x) }) := by
      unfold update_enrollment
      rw [he, hb]
      rfl
    rw [hrun]
    refine ⟨rfl, rfl, ?_, rfl, rfl, ?_, ?_, ?_, ?_, ?_⟩
    · show (db.enrollments.map _).find? _ = _
      exact findEnrollment_map_update db eid e u he
    · intro hg
      simp [applyEnrollmentUpdate, hg]
    · intro hs
      simp [applyEnrollmentUpdate, hs]
    · intro g hg
      simp [applyEnrollmentUpdate, hg]
    · intro st hst
      simp [applyEnrollmentUpdate, hst]
    · intro x hx hxne
      show x ∈ db.enrollments.map _
      rw [List.mem_map]
      exact ⟨x, hx, by simp [hxne]⟩

/-- Witness for C5 at a concrete input: updating only the grade of
enrollment 5 of delDB writes the grade, keeps the status, and leaves the
course counter where it was. -/
theorem C5_witness :
    findEnrollment (update_enrollment delDB 5 ⟨some "A", none⟩).2 5 =
      some ⟨5, 1, 1, some "A", "enrolled"⟩ ∧
    (update_enrollment delDB 5 ⟨some "A", none⟩).2.courses = delDB.courses := by
  have h := (C5_update_effect delDB 5 ⟨some "A", none⟩).2.2
    ⟨5, 1, 1, none, "enrolled"⟩ rfl (by simp)
  exact ⟨h.2.2.1, h.1⟩

/-- C6: both scoped list reads existence-check their scoping entity
before the enrollment query: a missing student or course yields the 404,
and an existing one with no enrollments yields a successful empty list,
an outcome distinct from the 404. -/
theorem C6_list_scoping (db : DB) (sid cid : Int) :
    (findStudent db sid = none →
      get_enrollments_by_student db sid = .error (studentNotFound sid)) ∧
    (findStudent db sid ≠ none →
      ∃ l, get_enrollments_by_student db sid = .ok l ∧
        ((∀ e ∈ db.enrollments, e.student_id ≠ sid) → l = [])) ∧
    (findCourse db cid = none →
      get_enrollments_by_course db cid = .error (courseNotFound cid)) ∧
    (findCourse db cid ≠ none →
      ∃ l, get_enrollments_by_course db cid = .ok l ∧
        ((∀ e ∈ db.enrollments, e.course_id ≠ cid) → l = [])) := by
  refine ⟨?_, ?_, ?_, ?_⟩
  · intro h
    unfold get_enrollments_by_student
    rw [h]
  · intro hne
    cases h : findStudent db sid with
    | none => exact absurd h hne
    | some s =>
      unfold get_enrollments_by_student
      rw [h]
      refine ⟨_, rfl, ?_⟩
      intro hall
      have hf : db.enrollments.filter (fun e => e.student_id == sid) = [] := by
        rw [List.filter_eq_nil_iff]
        intro e hee
        simpa using hall e hee
      rw [hf]
      rfl
  · intro h
    unfold get_enrollments_by_course
    rw [h]
  · intro hne
    cases h : findCourse db cid with
    | none => exact absurd h hne
    | some c =>
      unfold get_enrollments_by_course
      rw [h]
      refine ⟨_, rfl, ?_⟩
      intro hall
      have hf : db.enrollments.filter (fun e => e.course_id == cid) = [] := by
        rw [List.filter_eq_nil_iff]
        intro e hee
        simpa using hall e hee
      rw [hf]
      rfl

/-- Witness for C6 at a concrete input: student 1 of fullDB exists and
has no enrollments, so the scoped read succeeds with the empty list,
while the read scoped to the missing student 9 fails with the 404. -/
theorem C6_witness :
    get_enrollments_by_student fullDB 9 = .error (studentNotFound 9) ∧
    get_enrollments_by_student fullDB 1 = .ok [] := by
  constructor
  · exact (C6_list_scoping fullDB 9 1).1 rfl
  · obtain ⟨l, hl, hempty⟩ := (C6_list_scoping fullDB 1 1).2.1 (by decide)
    rw [hl, hempty]
    intro e he
    simp [fullDB] at he

/-- C8: admin login with valid credentials returns a fresh bearer token
whose expiry is exactly 8 hours after issuance and stores it; login with
an unknown username or wrong password fails 401; and every admin-gated
call rejects 401 a request whose Authorization header is absent, lacks
the Bearer form, carries a token absent from the store, or carries a
token strictly past its expiry, while accepting a stored unexpired token
and returning its username. -/
theorem C8_admin_session (admins : List Admin) (tokens : Tokens)
    (username password : String) (now seed : Int) (h8 : String) :
    (admins.find? (fun a => a.username == username) = none →
      (admin_login admins tokens username password now seed).1 =
        .error ⟨401, "Invalid credentials"⟩) ∧
    (∀ a, admins.find? (fun a => a.username == username) = some a →
      checkpw password a.password_hash = false →
      (admin_login admins tokens username password now seed).1 =
        .error ⟨401, "Invalid credentials"⟩) ∧
    (∀ a, admins.find? (fun a => a.username == username) = some a →
      checkpw password a.password_hash = true →
      (admin_login admins tokens username password now seed).1 =
        .ok ("tok" ++ toString seed, now + eightHours) ∧
      (admin_login admins tokens username password now seed).2 =
        (("tok" ++ toString seed,
          ⟨a.username, now + eightHours⟩) :: tokens : Tokens)) ∧
    ((verify_admin_token tokens none now).1 =
      .error ⟨401, "Authorization header missing"⟩) ∧
    (pyStartsWith h8 "Bearer " = false →
      (verify_admin_token tokens (some h8) now).1 =
        .error ⟨401, "Invalid authorization header format"⟩) ∧
    (pyStartsWith h8 "Bearer " = true →
      (tokens : List (String × TokenInfo)).find?
          (fun p => p.1 == pyReplaceDrop h8 "Bearer ") = none →
      (verify_admin_token tokens (some h8) now).1 =
        .error ⟨401, "Invalid or expired token"⟩) ∧
    (∀ p, pyStartsWith h8 "Bearer " = true →
      (tokens : List (String × TokenInfo)).find?
          (fun q => q.1 == pyReplaceDrop h8 "Bearer ") = some p →
      p.2.expires_at < now →
      (verify_admin_token tokens (some h8) now).1 =
        .error ⟨401, "Token expired"⟩) ∧
    (∀ p, pyStartsWith h8 "Bearer " = true →
      (tokens : List (String × TokenInfo)).find?
          (fun q => q.1 == pyReplaceDrop h8 "Bearer ") = some p →
      ¬ (p.2.expires_at < now) →
      (verify_admin_token tokens (some h8) now).1 = .ok p.2.username) := by
  refine ⟨?_, ?_, ?_, rfl, ?_, ?_, ?_, ?_⟩
  · intro h
    unfold admin_login
    rw [h]
  · intro a ha hpw
    unfold admin_login
    rw [ha]
    simp [hpw]
  · intro a ha hpw
    unfold admin_login
    rw [ha]
    simp [hpw]
  · intro hform
    unfold verify_admin_token
    simp [hform]
  · intro hform hnone
    unfold verify_admin_token
    simp only [hform, Bool.not_true, Bool.false_eq_true, if_false]
    rw [hnone]
  · intro p hform hsome hexp
    unfold verify_admin_token
    simp only [hform, Bool.not_true, Bool.false_eq_true, if_false]
    rw [hsome]
    simp [hexp]
  · intro p hform hsome hexp
    unfold verify_admin_token
    simp only [hform, Bool.not_true, Bool.false_eq_true, if_false]
    rw [hsome]
    simp [hexp]

/-- Witness for C8 at a concrete input: logging in as root with the
stored credential at time 0 yields a token expiring at second 28800,
exactly 8 hours later, and presenting that token at time 28801 is
rejected as expired. -/
theorem C8_witness :
    (admin_login rootAdmins [] "root" "pw" 0 1).1 = .ok ("tok1", 0 + eightHours) ∧
    (verify_admin_token [("tok1", ⟨"root", 28800⟩)]
      (some "Bearer tok1") 28801).1 = .error ⟨401, "Token expired"⟩ := by
  constructor
  · exact ((C8_admin_session rootAdmins [] "root" "pw" 0 1 "x").2.2.1
      ⟨"root", "pw"⟩ rfl rfl).1
  · exact (C8_admin_session rootAdmins [("tok1", ⟨"root", 28800⟩)]
      "root" "pw" 28801 1 "Bearer tok1").2.2.2.2.2.2.1
      ("tok1", ⟨"root", 28800⟩) rfl (by decide) (by decide)
